import Mathlib

/-!
# SafeRoute alert-dispatch pipeline: a shallow embedding

A shallow embedding of the SafeRoute alert-dispatch pipeline
(`core/models.py`, `core/utils.py`, `core/alert_engine.py`, and the
validation prologue of `demo_driver_alert` in `core/views.py`), with
theorems checking the natural-language specification against it.

Modelling conventions:
- Django model instances become Lean structures; the hazard store and the
  alert-history store become explicit `List` arguments and results.
- Python floats for coordinates, distances and radii become `ℚ`; the
  real-valued haversine formula itself (`math.sin` etc.) is embedded over
  `ℝ` as `haversine_distance`.  Inside the engine the distance function is
  abstracted as a parameter `dist : DistFn` (the engine only compares the
  returned distances, so every engine-level theorem below is proved for an
  arbitrary distance function and in particular for the haversine one).
- Timestamps (`created_at`, `sent_at`, `timezone.now()`) become `Int`
  minutes; `timedelta(minutes=m)` is `m`.
- The external SMS / voice transports (Africa's Talking) become opaque
  parameters of type `Transport`.
- Python's stable `list.sort` / `sorted` become `List.insertionSort`
  (also stable: equal keys keep their original relative order).
-/

namespace SafeRoute

/-! ## Data model (`core/models.py`) -/

/-- `core.models.Hazard`: type tag, coordinates, severity in 1..5,
creation timestamp. -/
structure Hazard where
  id : Nat
  type : String
  latitude : ℚ
  longitude : ℚ
  severity : Int
  created_at : Int
  deriving DecidableEq, Repr

instance : Inhabited Hazard := ⟨⟨0, "", 0, 0, 0, 0⟩⟩

/-- `core.models.AlertLog`: one row of the alert-history store. -/
structure AlertLog where
  phone_number : String
  hazard_id : Nat
  channel : String
  sent_at : Int
  deriving DecidableEq, Repr

/-- `Hazard.get_type_display()` for the closed choice set
`HAZARD_TYPE_CHOICES` (Django falls back to the raw value). -/
def get_type_display (h : Hazard) : String :=
  if h.type = "BLACKSPOT" then "Black Spot"
  else if h.type = "BAD_ROAD" then "Bad Road"
  else if h.type = "ACCIDENT" then "Accident"
  else if h.type = "PEDESTRIANS" then "Pedestrians"
  else h.type

/-! ## Module-level name resolution for `core/alert_engine.py`

`core/alert_engine.py` opens with
`from core.utils import (haversine_distance, is_driver_near_hazard,
make_voice_call, send_voice_alert_with_fallback,
send_sms_alert_with_fatigue_check, has_recent_alert)`.
A Python `from M import n` statement succeeds only when `n` is a
module-level name of `M`; otherwise loading the importing module raises
`ImportError`.  We record the two modules' name sets from the source. -/

/-- The module-level names `core/utils.py` defines (its complete list of
`def`s; the module defines nothing else at top level). -/
def core_utils_defs : List String :=
  ["haversine_distance", "is_driver_near_hazard", "get_distance_to_hazard",
   "has_recent_alert", "send_alert_with_fatigue_check",
   "get_africastalking_client", "send_sms_alert",
   "send_sms_alert_with_fatigue_check"]

/-- The names `core/alert_engine.py` imports from `core.utils`
(lines 14-21). -/
def alert_engine_utils_imports : List String :=
  ["haversine_distance", "is_driver_near_hazard", "make_voice_call",
   "send_voice_alert_with_fallback", "send_sms_alert_with_fatigue_check",
   "has_recent_alert"]

/-- Whether loading `core.alert_engine` succeeds: every imported name must
be defined in `core.utils`. -/
def alert_engine_import_ok : Bool :=
  alert_engine_utils_imports.all (fun n => core_utils_defs.contains n)

/-! ## `haversine_distance` (`core/utils.py` lines 9-43), over `ℝ` -/

/-- `math.radians`. -/
noncomputable def radians (x : ℝ) : ℝ := x * Real.pi / 180

/-- `core.utils.haversine_distance`: great-circle distance in meters from
decimal-degree coordinates, Earth radius 6,371,000 m. -/
noncomputable def haversine_distance (lat1 lon1 lat2 lon2 : ℝ) : ℝ :=
  let EARTH_RADIUS_METERS : ℝ := 6371000
  let lat1_rad := radians lat1
  let lon1_rad := radians lon1
  let lat2_rad := radians lat2
  let lon2_rad := radians lon2
  let dlat := lat2_rad - lat1_rad
  let dlon := lon2_rad - lon1_rad
  let a := Real.sin (dlat / 2) ^ 2 +
    Real.cos lat1_rad * Real.cos lat2_rad * Real.sin (dlon / 2) ^ 2
  let c := 2 * Real.arcsin (Real.sqrt a)
  EARTH_RADIUS_METERS * c

/-! ## The engine's distance abstraction -/

/-- A distance function on decimal-degree coordinate pairs, abstracting
`haversine_distance` inside the engine (which only ever compares the
returned distances against thresholds). -/
def DistFn : Type := ℚ → ℚ → ℚ → ℚ → ℚ

/-- Distance from a driver position to a hazard, as computed in
`find_nearby_hazards`. -/
def hazard_distance (dist : DistFn) (lat lon : ℚ) (h : Hazard) : ℚ :=
  dist lat lon h.latitude h.longitude

/-- Distance between two hazards, as computed in `deduplicate_hazards`. -/
def pair_distance (dist : DistFn) (h1 h2 : Hazard) : ℚ :=
  dist h1.latitude h1.longitude h2.latitude h2.longitude

/-! ## `LifeSaverAlertEngine.find_nearby_hazards` (lines 54-83)

The Python method collects `{hazard, distance}` pairs for hazards within
the radius (in store iteration order), sorts them by the stored distance
with Python's stable `list.sort`, and extracts the hazards. -/

def find_nearby_hazards (dist : DistFn) (lat lon radius : ℚ)
    (store : List Hazard) : List Hazard :=
  let nearby := store.filter (fun h => decide (hazard_distance dist lat lon h ≤ radius))
  nearby.insertionSort (fun a b => hazard_distance dist lat lon a ≤ hazard_distance dist lat lon b)

/-! ## `LifeSaverAlertEngine.deduplicate_hazards` (lines 85-152) -/

/-- The type keys of the Python dict `hazards_by_type`, in insertion order
(first appearance), built exactly as the grouping loop does. -/
def add_type (acc : List String) (t : String) : List String :=
  if t ∈ acc then acc else acc ++ [t]

def types_in_order (l : List Hazard) : List String :=
  l.foldl (fun acc h => add_type acc h.type) []

/-- The greedy single-pass clustering (lines 117-140): the first
not-yet-used hazard seeds a cluster; every later not-yet-used hazard
within 50 m of the seed joins and is marked used; repeat on the rest. -/
def group_clusters (dist : DistFn) : List Hazard → List (List Hazard)
  | [] => []
  | h1 :: rest =>
    (h1 :: rest.filter (fun h2 => decide (pair_distance dist h1 h2 ≤ 50))) ::
      group_clusters dist (rest.filter (fun h2 => !decide (pair_distance dist h1 h2 ≤ 50)))
termination_by l => l.length
decreasing_by
  simp only [List.length_cons]
  exact Nat.lt_succ_of_le (List.length_filter_le _ _)

/-- The Python sort key `lambda x: (-x.severity, -x.created_at.timestamp())`
compared lexicographically, as `sorted` does for tuples. -/
def sort_key_le (a b : Hazard) : Prop :=
  -a.severity < -b.severity ∨ (-a.severity = -b.severity ∧ -a.created_at ≤ -b.created_at)

instance : DecidableRel sort_key_le := fun a b => by
  unfold sort_key_le; exact inferInstance

instance : IsTotal Hazard sort_key_le :=
  ⟨by intro a b; unfold sort_key_le; omega⟩

instance : IsTrans Hazard sort_key_le :=
  ⟨by intro a b c; unfold sort_key_le; omega⟩

/-- Lines 143-148: `sorted(cluster, key=...)[0]` — the head of the stable
sort of the cluster (`none` only for an empty cluster, which the clustering
never produces). -/
def cluster_best (cluster : List Hazard) : Option Hazard :=
  (cluster.insertionSort sort_key_le).head?

/-- Lines 85-152: group by type in dict insertion order; a type group with
a single member is kept as is; otherwise each greedy cluster contributes
its best member. -/
def deduplicate_hazards (dist : DistFn) (nearby : List Hazard) : List Hazard :=
  (types_in_order nearby).flatMap (fun t =>
    let hazards := nearby.filter (fun h => h.type == t)
    if hazards.length = 1 then hazards
    else (group_clusters dist hazards).filterMap cluster_best)

/-! ## Severity filter and channel selection (lines 154-187) -/

def SEVERITY_THRESHOLD : Int := 2

def filter_by_severity (deduplicated : List Hazard) : List Hazard :=
  deduplicated.filter (fun h => decide (h.severity ≥ SEVERITY_THRESHOLD))

def select_alert_channel (hazard : Hazard) : String :=
  if hazard.severity ≥ 4 then "VOICE" else "SMS"

/-! ## Fatigue guard (`core/utils.py` lines 101-166)

The alert-history store (`AlertLog.objects`) is threaded explicitly: each
side-effecting function takes the current history and returns the updated
one.  `timezone.now()` becomes the explicit `now` argument;
`AlertLog.objects.create` sets `sent_at = now` (`auto_now_add`). -/

/-- `core.utils.has_recent_alert`: whether an `AlertLog` row matching the
phone number and hazard id with `sent_at ≥ now - minutes` exists. -/
def has_recent_alert (history : List AlertLog) (phone_number : String)
    (hazard_id : Nat) (minutes : Int) (now : Int) : Bool :=
  let time_threshold := now - minutes
  history.any (fun r =>
    r.phone_number == phone_number && r.hazard_id == hazard_id &&
      decide (r.sent_at ≥ time_threshold))

/-- `core.utils.send_alert_with_fatigue_check`: deny when a recent alert
exists; otherwise record a new `AlertLog` row (at reservation time) and
allow.  The `try/except` around the row creation concerns external store
failures, which the pure list store cannot produce. -/
def send_alert_with_fatigue_check (history : List AlertLog)
    (phone_number : String) (hazard : Hazard) (channel : String)
    (alert_cooldown_minutes : Int) (now : Int) :
    (Bool × String) × List AlertLog :=
  if has_recent_alert history phone_number hazard.id alert_cooldown_minutes now then
    ((false, "Alert for hazard " ++ toString hazard.id ++ " already sent to " ++
        phone_number ++ " within last " ++ toString alert_cooldown_minutes ++ " minutes"),
     history)
  else
    ((true, "Alert sent to " ++ phone_number ++ " via " ++ channel ++
        " for hazard " ++ toString hazard.id),
     { phone_number := phone_number, hazard_id := hazard.id,
       channel := channel, sent_at := now } :: history)

/-! ## Transports (`core/utils.py` lines 169-276) -/

/-- An external SMS or voice transport: phone number and message in,
`(success, response text)` out.  Abstracts `send_sms_alert`'s Africa's
Talking client (including its missing-credential and error branches, which
all end in such a pair). -/
def Transport : Type := String → String → Bool × String

def DEFAULT_ALERT : String :=
  "⚠️ LifeSaver Alert: Dangerous road section ahead. Please slow down."

/-- `core.utils.send_sms_alert`: `custom_message or DEFAULT` (Python `or`:
`None` and the empty string both fall back to the default), then the
transport call. -/
def send_sms_alert (sms_transport : Transport) (phone_number : String)
    (custom_message : Option String) : Bool × String :=
  let message := match custom_message with
    | none => DEFAULT_ALERT
    | some m => if m = "" then DEFAULT_ALERT else m
  sms_transport phone_number message

/-- `core.utils.send_sms_alert_with_fatigue_check`: fatigue check first
(which already records the reservation), then the SMS transport. -/
def send_sms_alert_with_fatigue_check (sms_transport : Transport) (now : Int)
    (history : List AlertLog) (phone_number : String) (hazard : Hazard)
    (custom_message : Option String) : (Bool × String) × List AlertLog :=
  let r := send_alert_with_fatigue_check history phone_number hazard "SMS" 30 now
  if r.1.1 = false then ((false, r.1.2), r.2)
  else (send_sms_alert sms_transport phone_number custom_message, r.2)

/-- Modelled from the spec: `send_voice_alert_with_fallback` is imported by
`core.alert_engine` from `core.utils` (and called on the VOICE dispatch
path, line 206) but is defined nowhere in the repository's source.  Spec
§4.7: invoke the external voice transport directly (not fatigue-gated at
this step); if it reports failure, fall back to the fatigue-gated SMS path
with the given SMS message; the aggregate success flag is voice success OR
fallback-SMS success; the third component carries the fallback SMS
response (absent when no fallback ran). -/
def send_voice_alert_with_fallback (voice_transport sms_transport : Transport)
    (now : Int) (history : List AlertLog) (phone_number : String)
    (hazard : Hazard) (voice_message sms_message : String) :
    (Bool × String × Option String) × List AlertLog :=
  let v := voice_transport phone_number voice_message
  if v.1 then ((true, v.2, none), history)
  else
    let s := send_sms_alert_with_fatigue_check sms_transport now history
      phone_number hazard (some sms_message)
    ((v.1 || s.1.1, v.2, some s.1.2), s.2)

/-! ## Dispatch (`core/alert_engine.py` lines 189-227) -/

/-- Python truthiness of the `sms_response` value tested by
`if sms_response:` (None and the empty string are falsy). -/
def py_truthy : Option String → Bool
  | none => false
  | some s => !(s == "")

/-- `LifeSaverAlertEngine.send_alert_for_hazard`: VOICE with SMS fallback
for severity ≥ 4, fatigue-checked SMS otherwise. -/
def send_alert_for_hazard (voice_transport sms_transport : Transport)
    (now : Int) (history : List AlertLog) (phone_number : String)
    (hazard : Hazard) : (Bool × String) × List AlertLog :=
  let channel := select_alert_channel hazard
  if channel = "VOICE" then
    let voice_msg := "Alert. " ++ get_type_display hazard ++ " ahead. Reduce speed immediately."
    let sms_msg := "🚨 " ++ (get_type_display hazard).toUpper ++ ": Reduce speed immediately."
    let r := send_voice_alert_with_fallback voice_transport sms_transport now
      history phone_number hazard voice_msg sms_msg
    if py_truthy r.1.2.2 then
      ((r.1.1, "VOICE FAILED, SMS FALLBACK: " ++ r.1.2.2.getD ""), r.2)
    else
      ((r.1.1, "VOICE CALL: " ++ r.1.2.1), r.2)
  else
    let sms_msg := "⚠️ " ++ get_type_display hazard ++ ": Ahead. Slow down."
    let s := send_sms_alert_with_fatigue_check sms_transport now history
      phone_number hazard (some sms_msg)
    ((s.1.1, "SMS: " ++ s.1.2), s.2)

/-! ## The pipeline (`core/alert_engine.py` lines 229-347) -/

/-- One entry of the result's `alerts` list (lines 263-269). -/
structure AlertEntry where
  hazard_id : Nat
  hazard_type : String
  severity : Int
  success : Bool
  message : String
  deriving DecidableEq, Repr

/-- One entry of the result's `hazards` list (lines 276-285). -/
structure HazardInfo where
  id : Nat
  type : String
  severity : Int
  lat : ℚ
  lng : ℚ
  deriving DecidableEq, Repr

/-- The dictionary `process_alerts` returns (lines 271-287). -/
structure PipelineResult where
  success : Bool
  nearby_hazards : Nat
  deduplicated : Nat
  alerts_sent : Nat
  hazards : List HazardInfo
  alerts : List AlertEntry
  deriving DecidableEq, Repr

/-- The `for hazard in hazards_to_alert` loop of `process_alerts`
(lines 260-269): dispatch each hazard in order, appending one entry per
hazard and threading the alert history. -/
def run_alert_loop (voice_transport sms_transport : Transport) (now : Int)
    (phone_number : String) :
    List Hazard → List AlertLog → List AlertEntry × List AlertLog
  | [], history => ([], history)
  | hazard :: rest, history =>
    let r := send_alert_for_hazard voice_transport sms_transport now history
      phone_number hazard
    let next := run_alert_loop voice_transport sms_transport now phone_number rest r.2
    ({ hazard_id := hazard.id, hazard_type := get_type_display hazard,
       severity := hazard.severity, success := r.1.1, message := r.1.2 } :: next.1,
     next.2)

/-- `LifeSaverAlertEngine.process_alerts`: locate, deduplicate, filter by
severity, dispatch each survivor, assemble the result dictionary. -/
def process_alerts (dist : DistFn) (voice_transport sms_transport : Transport)
    (now : Int) (store : List Hazard) (history : List AlertLog)
    (phone_number : String) (latitude longitude radius_meters : ℚ) :
    PipelineResult × List AlertLog :=
  let nearby := find_nearby_hazards dist latitude longitude radius_meters store
  let deduplicated := deduplicate_hazards dist nearby
  let hazards_to_alert := filter_by_severity deduplicated
  let sent := run_alert_loop voice_transport sms_transport now phone_number
    hazards_to_alert history
  ({ success := true,
     nearby_hazards := nearby.length,
     deduplicated := deduplicated.length,
     alerts_sent := sent.1.length,
     hazards := hazards_to_alert.map (fun h =>
       { id := h.id, type := get_type_display h, severity := h.severity,
         lat := h.latitude, lng := h.longitude }),
     alerts := sent.1 },
   sent.2)

def DEFAULT_RADIUS_METERS : ℚ := 300

/-- `LifeSaverAlertEngine.__init__`'s
`self.radius_meters = radius_meters or self.DEFAULT_RADIUS_METERS`
(Python `or`: `None` and `0` fall back to the default). -/
def engine_radius (radius_meters : Option ℚ) : ℚ :=
  match radius_meters with
  | none => DEFAULT_RADIUS_METERS
  | some r => if r = 0 then DEFAULT_RADIUS_METERS else r

/-- `core.alert_engine.lifesaver_alert_engine` (lines 290-347): construct
the engine and run `process_alerts`.  Note: no input validation of any
kind happens here. -/
def lifesaver_alert_engine (dist : DistFn)
    (voice_transport sms_transport : Transport) (now : Int)
    (store : List Hazard) (history : List AlertLog)
    (phone_number : String) (latitude longitude radius_meters : ℚ) :
    PipelineResult × List AlertLog :=
  process_alerts dist voice_transport sms_transport now store history
    phone_number latitude longitude (engine_radius (some radius_meters))

/-! ## The HTTP view prologue (`core/views.py` lines 382-409)

`demo_driver_alert` parses the request body (`data.get(...)` yields `None`
for a missing key, modelled as `Option`), validates
`if not phone_number or latitude is None or longitude is None` and returns
a 400 response without touching the engine; otherwise it runs
`lifesaver_alert_engine`.  The response assembly after the engine call is
elided: only the validation boundary matters here. -/

inductive DemoResponse where
  | invalid (status : Nat) (error : String)
  | ok (result : PipelineResult)
  deriving DecidableEq, Repr

def demo_driver_alert (dist : DistFn)
    (voice_transport sms_transport : Transport) (now : Int)
    (store : List Hazard) (history : List AlertLog)
    (phone_number : Option String) (latitude longitude : Option ℚ)
    (radius_meters : ℚ) : DemoResponse × List AlertLog :=
  if !py_truthy phone_number || latitude.isNone || longitude.isNone then
    (.invalid 400 "Missing required fields: phone_number, latitude, longitude", history)
  else
    let r := lifesaver_alert_engine dist voice_transport sms_transport now
      store history (phone_number.getD "") (latitude.getD 0) (longitude.getD 0)
      radius_meters
    (.ok r.1, r.2)

/-! ## The dispatcher contract for the VOICE path (spec §4.7)

Stated as a proposition about `send_alert_for_hazard` so that it can be
proved for every transport pair, history and high-severity hazard, and
instantiated at concrete inputs. -/

/-- The VOICE-path dispatch contract: with `v` the voice transport's answer
and `s` the fatigue-gated SMS path's answer, a successful voice call yields
the outcome `(true, "VOICE CALL: …")` with the history untouched (no
fatigue check, no record, and the SMS transport and history are never
consulted — the outcome is the same for every `sms_transport'` and
`history'`); a failed voice call yields success flag `v.1 || s.1.1`, the
SMS path's history update, and a message naming the channel that carried
the alert. -/
def VoiceDispatchSpec (voice_transport sms_transport : Transport) (now : Int)
    (history : List AlertLog) (phone_number : String) (hazard : Hazard) : Prop :=
  let voice_msg := "Alert. " ++ get_type_display hazard ++ " ahead. Reduce speed immediately."
  let sms_msg := "🚨 " ++ (get_type_display hazard).toUpper ++ ": Reduce speed immediately."
  let v := voice_transport phone_number voice_msg
  let r := send_alert_for_hazard voice_transport sms_transport now history phone_number hazard
  let s := send_sms_alert_with_fatigue_check sms_transport now history phone_number hazard (some sms_msg)
  (v.1 = true →
    r = ((true, "VOICE CALL: " ++ v.2), history) ∧
    ∀ (sms_transport' : Transport) (history' : List AlertLog),
      send_alert_for_hazard voice_transport sms_transport' now history' phone_number hazard =
        ((true, "VOICE CALL: " ++ v.2), history')) ∧
  (v.1 = false →
    r.1.1 = (v.1 || s.1.1) ∧
    r.2 = s.2 ∧
    (s.1.2 ≠ "" → r.1.2 = "VOICE FAILED, SMS FALLBACK: " ++ s.1.2) ∧
    (s.1.2 = "" → r.1.2 = "VOICE CALL: " ++ v.2))

/-! ## Concrete fixtures

Distance functions, transports and hazards used to instantiate the
theorems at concrete inputs (the engine takes the distance function as a
parameter, so a constant function realizes "two hazards d meters
apart"). -/

/-- A distance function placing everything at the same point. -/
def zero_dist : DistFn := fun _ _ _ _ => 0

/-- A distance function placing every pair of points 30 m apart. -/
def const30_dist : DistFn := fun _ _ _ _ => 30

/-- A transport that always succeeds. -/
def ok_sms : Transport := fun _ _ => (true, "SMS sent successfully")

/-- A transport that always fails (e.g. missing credentials). -/
def fail_voice : Transport := fun _ _ => (false, "credentials not configured")

/-- An accident of severity 3 reported at time 0. -/
def hz_accident3 : Hazard := ⟨1, "ACCIDENT", 0, 0, 3, 0⟩

/-- An accident of severity 5 reported at time 1. -/
def hz_accident5 : Hazard := ⟨2, "ACCIDENT", 0, 0, 5, 1⟩

/-- A bad-road hazard of severity 2. -/
def hz_bad_road2 : Hazard := ⟨3, "BAD_ROAD", 0, 0, 2, 0⟩

/-! ## Helper lemmas: the greedy clustering -/

theorem group_clusters_nil (dist : DistFn) : group_clusters dist [] = [] := by
  simp [group_clusters]

theorem group_clusters_cons (dist : DistFn) (h1 : Hazard) (rest : List Hazard) :
    group_clusters dist (h1 :: rest) =
      (h1 :: rest.filter (fun h2 => decide (pair_distance dist h1 h2 ≤ 50))) ::
        group_clusters dist (rest.filter (fun h2 => !decide (pair_distance dist h1 h2 ≤ 50))) := by
  rw [group_clusters]

/-- The clusters of a group partition it: their concatenation is a
permutation of the group. -/
theorem group_clusters_flatten_perm (dist : DistFn) :
    ∀ g : List Hazard, (group_clusters dist g).flatten.Perm g := by
  intro g
  induction g using group_clusters.induct dist with
  | case1 => simp [group_clusters_nil]
  | case2 h1 rest ih =>
    rw [group_clusters_cons]
    simp only [List.flatten_cons, List.cons_append]
    refine List.Perm.cons _ ?_
    exact (List.Perm.append_left _ ih).trans (List.filter_append_perm _ _)

/-- Every cluster is its seed followed by members within 50 m of the
seed. -/
theorem group_clusters_cluster_structure (dist : DistFn) :
    ∀ g : List Hazard, ∀ c ∈ group_clusters dist g,
      ∃ s m, c = s :: m ∧ ∀ x ∈ m, pair_distance dist s x ≤ 50 := by
  intro g
  induction g using group_clusters.induct dist with
  | case1 => simp [group_clusters_nil]
  | case2 h1 rest ih =>
    rw [group_clusters_cons]
    intro c hc
    rcases List.mem_cons.mp hc with hhd | htl
    · refine ⟨h1, _, hhd, ?_⟩
      intro x hx
      have := List.mem_filter.mp hx
      exact of_decide_eq_true this.2
    · exact ih c htl

/-- Everything assigned to a later cluster is more than 50 m from each
earlier cluster's seed: a hazard joins a seed's cluster exactly when it is
within 50 m of that seed. -/
theorem group_clusters_pairwise_separated (dist : DistFn) :
    ∀ g : List Hazard,
      List.Pairwise (fun c1 c2 => ∀ x ∈ c2, ¬ pair_distance dist c1.headI x ≤ 50)
        (group_clusters dist g) := by
  intro g
  induction g using group_clusters.induct dist with
  | case1 => simp [group_clusters_nil]
  | case2 h1 rest ih =>
    rw [group_clusters_cons]
    refine List.Pairwise.cons ?_ ih
    intro c2 hc2 x hx
    have hxflat : x ∈ (group_clusters dist
        (List.filter (fun h2 => !decide (pair_distance dist h1 h2 ≤ 50)) rest)).flatten :=
      List.mem_flatten.mpr ⟨c2, hc2, hx⟩
    have hxfar : x ∈ List.filter (fun h2 => !decide (pair_distance dist h1 h2 ≤ 50)) rest :=
      (group_clusters_flatten_perm dist _).mem_iff.mp hxflat
    have hxn := (List.mem_filter.mp hxfar).2
    simp only [List.headI]
    simp only [Bool.not_eq_true', decide_eq_false_iff_not] at hxn
    exact hxn

/-! ## Helper lemmas: representative selection -/

theorem sort_key_le_refl (a : Hazard) : sort_key_le a a := by
  unfold sort_key_le; omega

/-- The head of the stable sort of a nonempty cluster exists, belongs to
the cluster, and is `sort_key_le`-below every member. -/
theorem cluster_best_cons (s : Hazard) (m : List Hazard) :
    ∃ rep, cluster_best (s :: m) = some rep ∧ rep ∈ s :: m ∧
      ∀ x ∈ s :: m, sort_key_le rep x := by
  unfold cluster_best
  rcases hs : List.insertionSort sort_key_le (s :: m) with _ | ⟨rep, tail⟩
  · have := List.length_insertionSort sort_key_le (s :: m)
    rw [hs] at this
    simp at this
  · refine ⟨rep, rfl, ?_, ?_⟩
    · have : rep ∈ List.insertionSort sort_key_le (s :: m) := by
        rw [hs]; exact List.mem_cons_self _ _
      exact (List.mem_insertionSort sort_key_le).mp this
    · intro x hx
      have hx' : x ∈ List.insertionSort sort_key_le (s :: m) :=
        (List.mem_insertionSort sort_key_le).mpr hx
      rw [hs] at hx'
      rcases List.mem_cons.mp hx' with h | h
      · subst h; exact sort_key_le_refl _
      · have hsorted := List.sorted_insertionSort sort_key_le (s :: m)
        rw [hs] at hsorted
        exact List.rel_of_sorted_cons hsorted x h

theorem cluster_best_mem {c : List Hazard} {r : Hazard}
    (h : cluster_best c = some r) : r ∈ c := by
  unfold cluster_best at h
  have := List.mem_of_mem_head? (l := List.insertionSort sort_key_le c) (by rw [h]; rfl)
  exact (List.mem_insertionSort sort_key_le).mp this

/-- Being `sort_key_le`-below a member means: at least its severity, and
at least its creation time when severities tie. -/
theorem sort_key_le_severity {a b : Hazard} (h : sort_key_le a b) :
    b.severity ≤ a.severity ∧ (b.severity = a.severity → b.created_at ≤ a.created_at) := by
  unfold sort_key_le at h; omega

theorem filterMap_cluster_best_length_aux :
    ∀ cs : List (List Hazard), (∀ c ∈ cs, ∃ s m, c = s :: m) →
      (cs.filterMap cluster_best).length = cs.length := by
  intro cs
  induction cs with
  | nil => simp
  | cons c rest ih =>
    intro hne
    rcases hne c (List.mem_cons_self _ _) with ⟨s, m, rfl⟩
    rcases cluster_best_cons s m with ⟨rep, hbest, -, -⟩
    rw [List.filterMap_cons, hbest]
    simp only [List.length_cons]
    rw [ih (fun c hc => hne c (List.mem_cons_of_mem _ hc))]

/-- Every cluster contributes exactly one representative. -/
theorem filterMap_cluster_best_length (dist : DistFn) (g : List Hazard) :
    ((group_clusters dist g).filterMap cluster_best).length =
      (group_clusters dist g).length := by
  refine filterMap_cluster_best_length_aux _ ?_
  intro c hc
  rcases group_clusters_cluster_structure dist g c hc with ⟨s, m, hcm, -⟩
  exact ⟨s, m, hcm⟩

/-! ## Helper lemmas: the type-grouping of `deduplicate_hazards` -/

theorem mem_add_type (acc : List String) (s t : String) :
    t ∈ add_type acc s ↔ t ∈ acc ∨ t = s := by
  unfold add_type
  split
  · constructor
    · exact Or.inl
    · rintro (h | rfl)
      · exact h
      · assumption
  · simp [List.mem_append]

theorem mem_types_foldl (t : String) :
    ∀ (l : List Hazard) (acc : List String),
      t ∈ l.foldl (fun acc h => add_type acc h.type) acc ↔
        t ∈ acc ∨ ∃ h ∈ l, h.type = t := by
  intro l
  induction l with
  | nil => simp
  | cons h0 rest ih =>
    intro acc
    simp only [List.foldl_cons]
    rw [ih, mem_add_type]
    constructor
    · rintro ((h | h) | ⟨h, hm, ht⟩)
      · exact Or.inl h
      · exact Or.inr ⟨h0, List.mem_cons_self _ _, h.symm⟩
      · exact Or.inr ⟨h, List.mem_cons_of_mem _ hm, ht⟩
    · rintro (h | ⟨h, hm, ht⟩)
      · exact Or.inl (Or.inl h)
      · rcases List.mem_cons.mp hm with rfl | hm'
        · exact Or.inl (Or.inr ht.symm)
        · exact Or.inr ⟨h, hm', ht⟩

theorem mem_types_in_order (l : List Hazard) (t : String) :
    t ∈ types_in_order l ↔ ∃ h ∈ l, h.type = t := by
  unfold types_in_order
  rw [mem_types_foldl]
  simp

/-- Deduplication only ever keeps hazards of the input list. -/
theorem mem_of_mem_deduplicate {dist : DistFn} {l : List Hazard} {h : Hazard}
    (hm : h ∈ deduplicate_hazards dist l) : h ∈ l := by
  unfold deduplicate_hazards at hm
  rcases List.mem_flatMap.mp hm with ⟨t, _, hin⟩
  simp only at hin
  split at hin
  · exact (List.mem_filter.mp hin).1
  · rcases List.mem_filterMap.mp hin with ⟨c, hc, hbest⟩
    have hmemc : h ∈ c := cluster_best_mem hbest
    have : h ∈ (group_clusters dist (l.filter (fun x => x.type == t))).flatten :=
      List.mem_flatten.mpr ⟨c, hc, hmemc⟩
    have : h ∈ l.filter (fun x => x.type == t) :=
      (group_clusters_flatten_perm dist _).mem_iff.mp this
    exact (List.mem_filter.mp this).1

/-- A hazard type occurs in the input exactly when it occurs among the
representatives: groups of distinct types are never merged away. -/
theorem deduplicate_type_preserved (dist : DistFn) (l : List Hazard) (t : String) :
    (∃ h ∈ l, h.type = t) ↔ ∃ h ∈ deduplicate_hazards dist l, h.type = t := by
  constructor
  · rintro ⟨h, hm, ht⟩
    have htypes : t ∈ types_in_order l := (mem_types_in_order l t).mpr ⟨h, hm, ht⟩
    have hfil : h ∈ l.filter (fun x => x.type == t) :=
      List.mem_filter.mpr ⟨hm, by simp [ht]⟩
    unfold deduplicate_hazards
    rcases hgr : l.filter (fun x => x.type == t) with _ | ⟨g1, grest⟩
    · rw [hgr] at hfil; simp at hfil
    · by_cases hone : (l.filter (fun x => x.type == t)).length = 1
      · refine ⟨h, List.mem_flatMap.mpr ⟨t, htypes, ?_⟩, ht⟩
        simp only [hone, if_pos]
        exact hfil
      · rcases cluster_best_cons g1
            (grest.filter (fun h2 => decide (pair_distance dist g1 h2 ≤ 50))) with
          ⟨rep, hbest, hrepmem, -⟩
        have hcluster : (g1 :: grest.filter (fun h2 => decide (pair_distance dist g1 h2 ≤ 50))) ∈
            group_clusters dist (l.filter (fun x => x.type == t)) := by
          rw [hgr, group_clusters_cons]
          exact List.mem_cons_self _ _
        have hrepgrp : rep ∈ l.filter (fun x => x.type == t) := by
          have : rep ∈ (group_clusters dist (l.filter (fun x => x.type == t))).flatten :=
            List.mem_flatten.mpr ⟨_, hcluster, hrepmem⟩
          exact (group_clusters_flatten_perm dist _).mem_iff.mp this
        have hrept : rep.type = t := by
          have := (List.mem_filter.mp hrepgrp).2
          simpa using this
        refine ⟨rep, List.mem_flatMap.mpr ⟨t, htypes, ?_⟩, hrept⟩
        simp only [hone, if_neg, ite_false]
        exact List.mem_filterMap.mpr ⟨_, hcluster, hbest⟩
  · rintro ⟨h, hm, ht⟩
    exact ⟨h, mem_of_mem_deduplicate hm, ht⟩

/-! ## Helper lemmas: stability of the distance sort -/

theorem orderedInsert_filter_key (key : Hazard → ℚ) (d : ℚ) (x : Hazard) :
    ∀ s : List Hazard,
      (List.orderedInsert (fun a b => key a ≤ key b) x s).filter
          (fun h => decide (key h = d)) =
        if key x = d then x :: s.filter (fun h => decide (key h = d))
        else s.filter (fun h => decide (key h = d)) := by
  intro s
  induction s with
  | nil =>
    by_cases hxd : key x = d <;> simp [List.orderedInsert, List.filter_cons, hxd]
  | cons b s ih =>
    by_cases hxb : key x ≤ key b
    · have hoi : List.orderedInsert (fun a b => key a ≤ key b) x (b :: s) =
          x :: b :: s := by
        simp [List.orderedInsert, hxb]
      rw [hoi]
      by_cases hxd : key x = d <;> simp [List.filter_cons, hxd]
    · have hoi : List.orderedInsert (fun a b => key a ≤ key b) x (b :: s) =
          b :: List.orderedInsert (fun a b => key a ≤ key b) x s := by
        simp [List.orderedInsert, hxb]
      rw [hoi]
      by_cases hxd : key x = d
      · by_cases hbd : key b = d
        · exact absurd (by rw [hxd, hbd]) hxb
        · simp [List.filter_cons, hxd, hbd, ih]
      · by_cases hbd : key b = d <;> simp [List.filter_cons, hxd, hbd, ih]

/-- Stability of the distance sort: the members at any fixed key value
keep their original relative order (ties broken by input order). -/
theorem insertionSort_filter_key (key : Hazard → ℚ) (d : ℚ) :
    ∀ l : List Hazard,
      (List.insertionSort (fun a b => key a ≤ key b) l).filter
          (fun h => decide (key h = d)) =
        l.filter (fun h => decide (key h = d)) := by
  intro l
  induction l with
  | nil => rfl
  | cons x l ih =>
    show (List.orderedInsert _ x (List.insertionSort _ l)).filter _ = _
    rw [orderedInsert_filter_key, ih]
    by_cases hxd : key x = d <;> simp [List.filter_cons, hxd]

/-! ## Helper lemmas: the dispatch loop and the fatigue guard -/

/-- The dispatch loop produces exactly one entry per hazard, in order,
carrying that hazard's id, display type and severity — for every transport
pair (in particular for always-failing ones). -/
theorem run_alert_loop_map (voice_transport sms_transport : Transport)
    (now : Int) (phone_number : String) :
    ∀ (hs : List Hazard) (history : List AlertLog),
      (run_alert_loop voice_transport sms_transport now phone_number hs history).1.map
          (fun e => (e.hazard_id, e.hazard_type, e.severity)) =
        hs.map (fun h => (h.id, get_type_display h, h.severity)) := by
  intro hs
  induction hs with
  | nil => intro history; rfl
  | cons h rest ih =>
    intro history
    simp only [run_alert_loop, List.map_cons, List.cons.injEq]
    exact ⟨trivial, ih _⟩

theorem run_alert_loop_severity (voice_transport sms_transport : Transport)
    (now : Int) (phone_number : String) :
    ∀ (hs : List Hazard) (history : List AlertLog) (e : AlertEntry),
      e ∈ (run_alert_loop voice_transport sms_transport now phone_number hs history).1 →
      ∃ h ∈ hs, e.severity = h.severity := by
  intro hs
  induction hs with
  | nil => intro history e he; simp [run_alert_loop] at he
  | cons h rest ih =>
    intro history e he
    simp only [run_alert_loop] at he
    rcases List.mem_cons.mp he with rfl | htl
    · exact ⟨h, List.mem_cons_self _ _, rfl⟩
    · rcases ih _ e htl with ⟨h', hm, hsev⟩
      exact ⟨h', List.mem_cons_of_mem _ hm, hsev⟩

/-- `has_recent_alert` is exactly the existence of a matching history row
with `sent_at ≥ now - minutes`. -/
theorem has_recent_alert_iff (history : List AlertLog) (p : String) (hid : Nat)
    (m now : Int) :
    has_recent_alert history p hid m now = true ↔
      ∃ rec ∈ history, rec.phone_number = p ∧ rec.hazard_id = hid ∧
        now - m ≤ rec.sent_at := by
  unfold has_recent_alert
  rw [List.any_eq_true]
  simp [Bool.and_eq_true, beq_iff_eq, ge_iff_le, decide_eq_true_eq, and_assoc]

/-! ## The claims -/

/-- Claim C1: every hazard of severity ≥ 4 is routed to the VOICE dispatch
path, whose implementation `send_voice_alert_with_fallback` is imported by
`core.alert_engine` from `core.utils` but defined nowhere in the source
(nor is `make_voice_call`), so the import-name resolution of
`core.alert_engine` fails: the VOICE path has no executable definition and
loading the module raises an error instead of dispatching. -/
theorem voice_dispatch_import_unresolved :
    alert_engine_import_ok = false ∧
    "send_voice_alert_with_fallback" ∈ alert_engine_utils_imports ∧
    "send_voice_alert_with_fallback" ∉ core_utils_defs ∧
    "make_voice_call" ∉ core_utils_defs ∧
    ∀ h : Hazard, 4 ≤ h.severity → select_alert_channel h = "VOICE" := by
  refine ⟨by decide, by decide, by decide, by decide, ?_⟩
  intro h hs
  unfold select_alert_channel
  rw [if_pos hs]

/-- Claim C2, counterexample: called with a missing (empty, hence falsy)
phone number, the pipeline entry point `lifesaver_alert_engine` is not
rejected and returns no invalid-input signal: the pipeline runs in full,
dispatches an alert (`alerts_sent = 1`), reports `success = true`, and even
writes an alert-history record for the empty phone number. -/
theorem engine_dispatches_despite_missing_phone :
    (lifesaver_alert_engine zero_dist fail_voice ok_sms 0 [hz_bad_road2] []
        "" 1 1 300).1.alerts_sent = 1 ∧
    (lifesaver_alert_engine zero_dist fail_voice ok_sms 0 [hz_bad_road2] []
        "" 1 1 300).1.success = true ∧
    (lifesaver_alert_engine zero_dist fail_voice ok_sms 0 [hz_bad_road2] []
        "" 1 1 300).2 =
      [{ phone_number := "", hazard_id := 3, channel := "SMS", sent_at := 0 }] := by
  decide

/-- Claim C2, amended: the missing-phone/missing-coordinate validation
lives in the HTTP view `demo_driver_alert`, not in the orchestrator: the
view returns the distinct invalid-input signal (HTTP 400, "Missing
required fields…") for every store, history and transport — so no locate,
dedup or dispatch runs — whenever the phone number is absent or empty or a
coordinate is absent; the orchestrator `lifesaver_alert_engine` itself
performs no input validation (see the counterexample). -/
theorem view_rejects_missing_input_before_pipeline :
    ∀ (dist : DistFn) (vT sT : Transport) (now : Int) (store : List Hazard)
      (history : List AlertLog) (lat lon radius : ℚ) (p : String),
      demo_driver_alert dist vT sT now store history none (some lat) (some lon) radius =
        (.invalid 400 "Missing required fields: phone_number, latitude, longitude", history) ∧
      demo_driver_alert dist vT sT now store history (some "") (some lat) (some lon) radius =
        (.invalid 400 "Missing required fields: phone_number, latitude, longitude", history) ∧
      demo_driver_alert dist vT sT now store history (some p) none (some lon) radius =
        (.invalid 400 "Missing required fields: phone_number, latitude, longitude", history) ∧
      demo_driver_alert dist vT sT now store history (some p) (some lat) none radius =
        (.invalid 400 "Missing required fields: phone_number, latitude, longitude", history) := by
  intro dist vT sT now store history lat lon radius p
  refine ⟨rfl, rfl, ?_, ?_⟩ <;> simp [demo_driver_alert]

/-- Claim C3: the fatigue-guarded reservation returns false and leaves the
history unchanged exactly when a record for the same (phone, hazard) pair
with `sent_at ≥ now - cooldown` exists; otherwise it returns true and
prepends the new record at reservation time — the history update is the
same for every SMS transport, i.e. it happens before (independently of)
the transport call.  Scenario: a first reservation at T succeeds, a second
for the same pair at T+10 min under a 30-minute cooldown fails, a third at
T+31 min succeeds again. -/
theorem fatigue_guard_reservation_spec :
    (∀ (history : List AlertLog) (phone : String) (hz : Hazard) (channel : String)
        (cooldown now : Int),
      (send_alert_with_fatigue_check history phone hz channel cooldown now).1.1 = false ∧
        (send_alert_with_fatigue_check history phone hz channel cooldown now).2 = history ↔
        ∃ rec ∈ history, rec.phone_number = phone ∧ rec.hazard_id = hz.id ∧
          now - cooldown ≤ rec.sent_at) ∧
    (∀ (history : List AlertLog) (phone : String) (hz : Hazard) (channel : String)
        (cooldown now : Int),
      (send_alert_with_fatigue_check history phone hz channel cooldown now).1.1 = true ↔
        ¬ ∃ rec ∈ history, rec.phone_number = phone ∧ rec.hazard_id = hz.id ∧
          now - cooldown ≤ rec.sent_at) ∧
    (∀ (history : List AlertLog) (phone : String) (hz : Hazard) (channel : String)
        (cooldown now : Int),
      (send_alert_with_fatigue_check history phone hz channel cooldown now).1.1 = true →
        (send_alert_with_fatigue_check history phone hz channel cooldown now).2 =
          { phone_number := phone, hazard_id := hz.id, channel := channel,
            sent_at := now } :: history) ∧
    (∀ (sms_transport : Transport) (now : Int) (history : List AlertLog)
        (phone : String) (hz : Hazard) (custom_message : Option String),
      (send_sms_alert_with_fatigue_check sms_transport now history phone hz
          custom_message).2 =
        (send_alert_with_fatigue_check history phone hz "SMS" 30 now).2) ∧
    (send_alert_with_fatigue_check [] "+254700000001" hz_accident5 "SMS" 30 0).1.1 = true ∧
    (send_alert_with_fatigue_check
        (send_alert_with_fatigue_check [] "+254700000001" hz_accident5 "SMS" 30 0).2
        "+254700000001" hz_accident5 "SMS" 30 10).1.1 = false ∧
    (send_alert_with_fatigue_check
        (send_alert_with_fatigue_check [] "+254700000001" hz_accident5 "SMS" 30 0).2
        "+254700000001" hz_accident5 "SMS" 30 31).1.1 = true := by
  refine ⟨?_, ?_, ?_, ?_, by decide, by decide, by decide⟩
  · intro history phone hz channel cooldown now
    rw [← has_recent_alert_iff]
    unfold send_alert_with_fatigue_check
    cases hb : has_recent_alert history phone hz.id cooldown now <;> simp [hb]
  · intro history phone hz channel cooldown now
    rw [← has_recent_alert_iff]
    unfold send_alert_with_fatigue_check
    cases hb : has_recent_alert history phone hz.id cooldown now <;> simp [hb]
  · intro history phone hz channel cooldown now
    unfold send_alert_with_fatigue_check
    cases hb : has_recent_alert history phone hz.id cooldown now <;> simp [hb]
  · intro sms_transport now history phone hz custom_message
    cases hb : (send_alert_with_fatigue_check history phone hz "SMS" 30 now).1.1 <;>
      simp [send_sms_alert_with_fatigue_check, hb]

/-- Claim C4: on the VOICE path the voice transport is invoked directly,
with no fatigue-guard check and no history write; the fatigue-gated SMS
path runs exactly when the voice transport reports failure; the outcome's
success flag is voice success OR fallback-SMS success; and the outcome
message records the channel that carried the alert
(see `VoiceDispatchSpec`). -/
theorem voice_path_fallback_dispatch :
    ∀ (voice_transport sms_transport : Transport) (now : Int)
      (history : List AlertLog) (phone_number : String) (hazard : Hazard),
      4 ≤ hazard.severity →
      VoiceDispatchSpec voice_transport sms_transport now history phone_number hazard := by
  intro vT sT now history phone hz hsev
  have hch : select_alert_channel hz = "VOICE" := by
    unfold select_alert_channel; rw [if_pos hsev]
  unfold VoiceDispatchSpec
  simp only
  constructor
  · intro hv
    have hall : ∀ (sT' : Transport) (history' : List AlertLog),
        send_alert_for_hazard vT sT' now history' phone hz =
          ((true, "VOICE CALL: " ++
            (vT phone ("Alert. " ++ get_type_display hz ++
              " ahead. Reduce speed immediately.")).2), history') := by
      intro sT' history'
      unfold send_alert_for_hazard
      rw [hch]
      simp only [if_pos rfl]
      unfold send_voice_alert_with_fallback
      simp only [hv, if_pos rfl, py_truthy]
      rfl
    exact ⟨hall sT history, hall⟩
  · intro hv
    unfold send_alert_for_hazard
    rw [hch]
    simp only [if_pos rfl]
    unfold send_voice_alert_with_fallback
    simp only [hv]
    simp only [Bool.false_eq_true, if_false, py_truthy, Bool.false_or]
    by_cases hs : (send_sms_alert_with_fatigue_check sT now history phone hz
        (some ("🚨 " ++ (get_type_display hz).toUpper ++
          ": Reduce speed immediately."))).1.2 = ""
    · simp [hs]
    · simp [hs]

/-- Claim C4, witness: the VOICE-path contract instantiated with an
always-failing voice transport, an always-succeeding SMS transport, an
empty history and the severity-5 accident. -/
theorem voice_path_fallback_dispatch_witness :
    VoiceDispatchSpec fail_voice ok_sms 0 [] "+254700000001" hz_accident5 :=
  voice_path_fallback_dispatch fail_voice ok_sms 0 [] "+254700000001" hz_accident5
    (by decide)

/-- Claim C5: deduplication clusters per type group by a single greedy
pass — the clusters partition the group, each cluster is its seed plus
members within 50 m of the seed, and everything pushed to a later cluster
is more than 50 m from each earlier seed (so joining is exactly
"within 50 m of the seed"); representatives always come from the input,
a type appears among the representatives exactly when it appears in the
input, and concretely two hazards of different types at identical
coordinates are both kept, never merged. -/
theorem dedup_greedy_clustering_by_type :
    (∀ (dist : DistFn) (g : List Hazard),
      (group_clusters dist g).flatten.Perm g ∧
      (∀ c ∈ group_clusters dist g,
        ∃ s m, c = s :: m ∧ ∀ x ∈ m, pair_distance dist s x ≤ 50) ∧
      List.Pairwise (fun c1 c2 => ∀ x ∈ c2, ¬ pair_distance dist c1.headI x ≤ 50)
        (group_clusters dist g)) ∧
    (∀ (dist : DistFn) (l : List Hazard) (t : String),
      ((∃ h ∈ l, h.type = t) ↔ ∃ h ∈ deduplicate_hazards dist l, h.type = t) ∧
      ∀ h ∈ deduplicate_hazards dist l, h ∈ l) ∧
    deduplicate_hazards zero_dist [hz_accident3, hz_bad_road2] =
      [hz_accident3, hz_bad_road2] := by
  refine ⟨?_, ?_, by decide⟩
  · intro dist g
    exact ⟨group_clusters_flatten_perm dist g,
      group_clusters_cluster_structure dist g,
      group_clusters_pairwise_separated dist g⟩
  · intro dist l t
    exact ⟨deduplicate_type_preserved dist l t, fun h hm => mem_of_mem_deduplicate hm⟩

/-- Claim C6: each cluster keeps exactly one representative — the member
selected by sorting on severity descending then creation time descending
and taking the head: it belongs to the cluster, has maximal severity, and
among maximal-severity members has maximal creation time.  Concretely, for
two accident hazards 30 m apart with severities 3 and 5, dedup yields
exactly the severity-5 hazard. -/
theorem dedup_cluster_representative_selection :
    (∀ (s : Hazard) (m : List Hazard),
      ∃ rep, cluster_best (s :: m) = some rep ∧ rep ∈ s :: m ∧
        (∀ x ∈ s :: m, x.severity ≤ rep.severity) ∧
        (∀ x ∈ s :: m, x.severity = rep.severity → x.created_at ≤ rep.created_at)) ∧
    (∀ (dist : DistFn) (g : List Hazard),
      ((group_clusters dist g).filterMap cluster_best).length =
        (group_clusters dist g).length) ∧
    deduplicate_hazards const30_dist [hz_accident3, hz_accident5] = [hz_accident5] := by
  refine ⟨?_, filterMap_cluster_best_length, ?_⟩
  · intro s m
    rcases cluster_best_cons s m with ⟨rep, hbest, hmem, hle⟩
    exact ⟨rep, hbest, hmem,
      fun x hx => (sort_key_le_severity (hle x hx)).1,
      fun x hx => (sort_key_le_severity (hle x hx)).2⟩
  · simp +decide [deduplicate_hazards, types_in_order, add_type, group_clusters,
      cluster_best, sort_key_le, hz_accident3, hz_accident5, const30_dist,
      pair_distance]

/-- Claim C7: the locator returns exactly the hazards of the store within
the radius (a permutation of the distance filter, and membership is
"in the store and within the radius" — everything beyond the radius is
excluded), ordered ascending by distance to the driver, with ties broken
by store iteration order (stability). -/
theorem locator_filters_and_sorts_by_distance :
    ∀ (dist : DistFn) (lat lon radius : ℚ) (store : List Hazard),
      (find_nearby_hazards dist lat lon radius store).Perm
        (store.filter (fun h => decide (hazard_distance dist lat lon h ≤ radius))) ∧
      (find_nearby_hazards dist lat lon radius store).Sorted
        (fun a b => hazard_distance dist lat lon a ≤ hazard_distance dist lat lon b) ∧
      (∀ h : Hazard, h ∈ find_nearby_hazards dist lat lon radius store ↔
        h ∈ store ∧ hazard_distance dist lat lon h ≤ radius) ∧
      (∀ d : ℚ, (find_nearby_hazards dist lat lon radius store).filter
          (fun h => decide (hazard_distance dist lat lon h = d)) =
        (store.filter (fun h => decide (hazard_distance dist lat lon h ≤ radius))).filter
          (fun h => decide (hazard_distance dist lat lon h = d))) := by
  intro dist lat lon radius store
  refine ⟨List.perm_insertionSort _ _, ?_, ?_, ?_⟩
  · haveI : IsTotal Hazard
        (fun a b => hazard_distance dist lat lon a ≤ hazard_distance dist lat lon b) :=
      ⟨fun a b => le_total _ _⟩
    haveI : IsTrans Hazard
        (fun a b => hazard_distance dist lat lon a ≤ hazard_distance dist lat lon b) :=
      ⟨fun a b c hab hbc => le_trans hab hbc⟩
    exact List.sorted_insertionSort _ _
  · intro h
    unfold find_nearby_hazards
    rw [List.mem_insertionSort, List.mem_filter]
    simp [decide_eq_true_eq]
  · intro d
    exact insertionSort_filter_key (hazard_distance dist lat lon) d _

/-- Claim C8: the severity filter keeps exactly the hazards with severity
≥ 2; severities 2 and 3 select the SMS channel and severities ≥ 4 the
VOICE channel; and every entry of a pipeline run's outcome list has
severity ≥ 2 — a below-threshold hazard never reaches the outcomes,
regardless of proximity, store, history or transports. -/
theorem severity_filter_and_channel_selection :
    (∀ (l : List Hazard) (h : Hazard),
      h ∈ filter_by_severity l ↔ h ∈ l ∧ 2 ≤ h.severity) ∧
    (∀ h : Hazard, 2 ≤ h.severity → h.severity ≤ 3 → select_alert_channel h = "SMS") ∧
    (∀ h : Hazard, 4 ≤ h.severity → select_alert_channel h = "VOICE") ∧
    (∀ (dist : DistFn) (vT sT : Transport) (now : Int) (store : List Hazard)
        (history : List AlertLog) (phone : String) (lat lon radius : ℚ)
        (e : AlertEntry),
      e ∈ (process_alerts dist vT sT now store history phone lat lon radius).1.alerts →
        2 ≤ e.severity) := by
  refine ⟨?_, ?_, ?_, ?_⟩
  · intro l h
    simp [filter_by_severity, List.mem_filter, SEVERITY_THRESHOLD, ge_iff_le,
      decide_eq_true_eq]
  · intro h h2 h3
    unfold select_alert_channel
    rw [if_neg]
    omega
  · intro h h4
    unfold select_alert_channel
    rw [if_pos h4]
  · intro dist vT sT now store history phone lat lon radius e he
    simp only [process_alerts] at he
    rcases run_alert_loop_severity vT sT now phone _ _ e he with ⟨h, hm, hsev⟩
    have := (List.mem_filter.mp hm).2
    rw [hsev]
    simpa [ge_iff_le, SEVERITY_THRESHOLD, decide_eq_true_eq] using this

/-- Claim C9: a pipeline run processes every hazard surviving the severity
filter and emits exactly one outcome entry per survivor, in dedup output
order (the outcome list projects to the survivor list), with no early
termination — the counts hold for every transport pair, in particular
always-failing ones, so one hazard's dispatch failure never suppresses the
entries of later hazards. -/
theorem pipeline_processes_all_surviving_hazards :
    ∀ (dist : DistFn) (vT sT : Transport) (now : Int) (store : List Hazard)
      (history : List AlertLog) (phone : String) (lat lon radius : ℚ),
      (process_alerts dist vT sT now store history phone lat lon radius).1.alerts.map
          (fun e => (e.hazard_id, e.hazard_type, e.severity)) =
        (filter_by_severity (deduplicate_hazards dist
            (find_nearby_hazards dist lat lon radius store))).map
          (fun h => (h.id, get_type_display h, h.severity)) ∧
      (process_alerts dist vT sT now store history phone lat lon radius).1.alerts.length =
        (filter_by_severity (deduplicate_hazards dist
            (find_nearby_hazards dist lat lon radius store))).length ∧
      (process_alerts dist vT sT now store history phone lat lon radius).1.alerts_sent =
        (filter_by_severity (deduplicate_hazards dist
            (find_nearby_hazards dist lat lon radius store))).length := by
  intro dist vT sT now store history phone lat lon radius
  have hm := run_alert_loop_map vT sT now phone
    (filter_by_severity (deduplicate_hazards dist
      (find_nearby_hazards dist lat lon radius store))) history
  have hlen : (run_alert_loop vT sT now phone
      (filter_by_severity (deduplicate_hazards dist
        (find_nearby_hazards dist lat lon radius store))) history).1.length =
      (filter_by_severity (deduplicate_hazards dist
        (find_nearby_hazards dist lat lon radius store))).length := by
    have := congrArg List.length hm
    simpa [List.length_map] using this
  exact ⟨hm, hlen, hlen⟩

/-- Claim C10: the haversine distance is symmetric in its two coordinate
pairs. -/
theorem haversine_distance_symm (lat1 lon1 lat2 lon2 : ℝ) :
    haversine_distance lat1 lon1 lat2 lon2 = haversine_distance lat2 lon2 lat1 lon1 := by
  unfold haversine_distance
  simp only
  have hsin : ∀ x y : ℝ, Real.sin ((x - y) / 2) ^ 2 = Real.sin ((y - x) / 2) ^ 2 := by
    intro x y
    rw [show (x - y) / 2 = -((y - x) / 2) by ring, Real.sin_neg, neg_sq]
  rw [hsin, mul_comm (Real.cos (radians lat1)), hsin (radians lon2) (radians lon1)]

end SafeRoute
